import Mathlib

/-!
Verification of the pump-selection tool
(src/stpcalculationbyreadingvalueexcelfile.py).

The program has three computational parts, embedded here over exact
rationals:
- the catalog loader `load_pump_data` (lines 9-20), whose per-cell
  head-range normalisation is line 13;
- the pure head calculator `calculate_pump_head` (lines 24-44);
- the pump matcher `suitable_pumps` (line 96), a comparison filter
  over the loaded catalog, embedded as a `List.filter`;
- the button handler (lines 80-103), which either reports a missing
  catalog or runs the calculator and the matcher.
Python numbers are modelled as `ℚ` (the decimal literals of the source
are exact rationals here) and `math.ceil` as `Int.ceil`.
-/

/-- A cell of the Head m column as pandas reads it from pumps.csv:
either a number or a string (e.g. a bracketed range such as the text
[30, 45]). -/
inductive HeadCell where
  | num (v : ℚ)
  | str (s : String)
deriving DecidableEq

/-- Python str.startswith with the single-character argument of
line 13: true exactly when the first character of the string is an
open bracket. -/
def starts_with_open_bracket (s : String) : Bool :=
  match s.data with
  | [] => false
  | c :: _ => c = '['

/-- Splitting a character list at commas, the comma-separation step of
parsing a Python list literal. -/
def split_on_comma : List Char → List (List Char)
  | [] => [[]]
  | c :: rest =>
      let r := split_on_comma rest
      if c = ',' then [] :: r
      else
        match r with
        | [] => [[c]]
        | t :: ts => (c :: t) :: ts

/-- Stripping leading and trailing spaces from a token of a Python list
literal. -/
def trim_spaces (l : List Char) : List Char :=
  ((l.dropWhile (fun c => c = ' ')).reverse.dropWhile (fun c => c = ' ')).reverse

/-- The numeric value of a decimal digit character, none on any other
character. -/
def digit_value (c : Char) : Option ℕ :=
  if c.isDigit then some (c.toNat - 48) else none

/-- A nonempty all-digit token read as a natural number. -/
def parse_nat (l : List Char) : Option ℕ :=
  match l with
  | [] => none
  | _ => l.foldlM (fun acc c => (digit_value c).map (fun d => acc * 10 + d)) 0

/-- Models ast.literal_eval for the bracketed list literals occurring in
the Head m column: a string of the form [n1, n2, ...] whose elements are
natural-number literals evaluates to the corresponding list of numbers;
any other string fails (literal_eval raises, or the later indexing
fails on an empty list), giving none. -/
def literal_eval_list (s : String) : Option (List ℚ) :=
  match s.data with
  | '[' :: rest =>
      match rest.reverse with
      | ']' :: mid_rev =>
          (split_on_comma mid_rev.reverse).mapM
            (fun t => (parse_nat (trim_spaces t)).map (fun n => (n : ℚ)))
      | _ => none
  | _ => none

/-- The per-cell transform of line 13: a string cell beginning with an
open bracket is parsed with literal_eval and indexed at 0; a numeric
cell is used directly. A parse failure or an empty parsed list is none
(the exception path, caught by the surrounding try of load_pump_data).
A string cell that does not begin with an open bracket is also none
here: the source passes such a cell through unchanged, but a
non-numeric min-head makes the later comparison with total_head raise,
so the model folds that case into the failure path as well. -/
def min_head_value : HeadCell → Option ℚ
  | HeadCell.num v => some v
  | HeadCell.str s =>
      if starts_with_open_bracket s then (literal_eval_list s).bind List.head?
      else none

/-- One row of pumps.csv before normalisation. -/
structure RawRow where
  model : String
  manufacturer : String
  hp : ℚ
  head : HeadCell
  suitability : String
deriving DecidableEq

/-- One loaded catalog row: the raw columns plus the derived
Min Head m column of line 13. -/
structure PumpRecord where
  model : String
  manufacturer : String
  hp : ℚ
  head_range_raw : HeadCell
  suitability : String
  min_head : ℚ
deriving DecidableEq

/-- What load_pump_data hands back to the rest of the program: whether
st.error was called, and the resulting catalog (possibly empty). -/
structure LoadResult where
  displayed_error : Bool
  catalog : List PumpRecord
deriving DecidableEq

/-- The pumps.csv source as seen by pd.read_csv: either the file is
missing (FileNotFoundError) or it yields a list of rows. -/
inductive CsvSource where
  | missing
  | rows (rs : List RawRow)
deriving DecidableEq

/-- load_pump_data, lines 9-20. Both except branches display an error
and return an empty DataFrame; an `Except.error` would model an
exception escaping to the caller, which the source's try/except makes
impossible. -/
def load_pump_data : CsvSource → Except String LoadResult
  | CsvSource.missing => Except.ok ⟨true, []⟩
  | CsvSource.rows rs =>
      match rs.mapM (fun r => (min_head_value r.head).map
          (fun m => PumpRecord.mk r.model r.manufacturer r.hp r.head r.suitability m)) with
      | some recs => Except.ok ⟨false, recs⟩
      | none => Except.ok ⟨true, []⟩

/-- The six components returned by calculate_pump_head, in the order of
the return tuple on line 44. total_head is the only integer component
(math.ceil returns an int). -/
structure CalculationResult where
  flow_rate_lps : ℚ
  flow_friction_loss : ℚ
  total_friction_loss : ℚ
  total_head : ℤ
  pressure_head_meters : ℚ
  total_head_unrounded : ℚ
deriving DecidableEq

/-- calculate_pump_head, lines 24-44, transcribed step by step. -/
def calculate_pump_head (vertical_height horizontal_distance bends_fittings_loss
    pressure_head_kgcm2 stp_capacity : ℚ) : CalculationResult :=
  let pressure_head_meters := pressure_head_kgcm2 * 10
  let flow_rate_lps := (stp_capacity * 1000) / (24 * 60 * 60)
  let flow_friction_loss := 0.1 * flow_rate_lps ^ 2
  let static_friction_loss := (vertical_height + horizontal_distance) * 0.083 * 0.8
  let total_friction_loss := static_friction_loss + flow_friction_loss
  let total_head_unrounded :=
    vertical_height + total_friction_loss + bends_fittings_loss + pressure_head_meters
  let total_head : ℤ := ⌈total_head_unrounded⌉
  ⟨flow_rate_lps, flow_friction_loss, total_friction_loss, total_head,
    pressure_head_meters, total_head_unrounded⟩

/-- Line 32 viewed as a function of the flow rate: the flow-based
friction loss 0.1 × flow². -/
def flow_friction_of (flow_rate_lps : ℚ) : ℚ := 0.1 * flow_rate_lps ^ 2

/-- Line 96: pump_data[pump_data[Min Head m] >= total_head], the
comparison filter over the catalog rows in their loaded order. -/
def suitable_pumps (pump_data : List PumpRecord) (total_head : ℤ) : List PumpRecord :=
  pump_data.filter (fun p => (total_head : ℚ) ≤ p.min_head)

/-- Outcome of one click of the Calculate button (lines 80-103): either
the empty-catalog error of line 82, or the calculation results, the
matched pumps, and whether the no-suitable-pumps warning of line 98 was
shown. -/
inductive ButtonOutcome where
  | dataError (msg : String)
  | results (res : CalculationResult) (suitable : List PumpRecord)
      (no_match_warning : Bool)
deriving DecidableEq

/-- True when the click reached the calculator and the matcher (the
else branch of line 83). -/
def ButtonOutcome.proceeded : ButtonOutcome → Bool
  | ButtonOutcome.dataError _ => false
  | ButtonOutcome.results _ _ _ => true

/-- The button handler, lines 80-103: an empty catalog is reported with
st.error and nothing is computed; otherwise the calculator runs and the
catalog is filtered by the resulting total head. -/
def run_button (pump_data : List PumpRecord) (vertical_height horizontal_distance
    bends_fittings_loss pressure_head_kgcm2 stp_capacity : ℚ) : ButtonOutcome :=
  if pump_data.isEmpty then
    ButtonOutcome.dataError "Pump data not loaded. Please check pumps.csv."
  else
    let r := calculate_pump_head vertical_height horizontal_distance
      bends_fittings_loss pressure_head_kgcm2 stp_capacity
    let suitable := suitable_pumps pump_data r.total_head
    ButtonOutcome.results r suitable suitable.isEmpty

/-- pandas unique: the distinct values of a column in first-occurrence
order. -/
def pandas_unique (l : List ℚ) : List ℚ :=
  l.foldl (fun acc x => if x ∈ acc then acc else acc ++ [x]) []

/-- Lines 65-67: the capacity options are the distinct non-missing
values of the STP Capacity (KLD) column. -/
def stp_options (column : List (Option ℚ)) : List ℚ :=
  pandas_unique (column.filterMap id)

/-- Lines 68-69: the user picks one of the options by position and the
chosen value is converted with float and passed on unchanged (float on
a numeric option is the identity here); no validation is applied. -/
def capacity_of_selection (column : List (Option ℚ)) (choice : Nat) : Option ℚ :=
  (stp_options column).get? choice

/-- A concrete catalog row used to instantiate theorems. -/
def example_pump : PumpRecord :=
  ⟨"P1", "M1", 5, HeadCell.num 40, "Domestic", 40⟩

/-- C1: for every input, the six components returned by
calculate_pump_head are exactly the spec formulas: pressure head is
pressure × 10, flow rate is capacity × 1000 / 86400, flow friction loss
is 0.1 × flow², total friction loss is (vertical + horizontal) × 0.083
× 0.8 plus the flow friction loss, the unrounded total head is the sum
of vertical height, total friction loss, bends loss and pressure head,
and the total head is its ceiling. -/
theorem calculate_pump_head_formulas (v h b p c : ℚ) :
    (calculate_pump_head v h b p c).pressure_head_meters = p * 10 ∧
    (calculate_pump_head v h b p c).flow_rate_lps = (c * 1000) / 86400 ∧
    (calculate_pump_head v h b p c).flow_friction_loss =
      0.1 * ((calculate_pump_head v h b p c).flow_rate_lps) ^ 2 ∧
    (calculate_pump_head v h b p c).total_friction_loss =
      (v + h) * 0.083 * 0.8 + (calculate_pump_head v h b p c).flow_friction_loss ∧
    (calculate_pump_head v h b p c).total_head_unrounded =
      v + (calculate_pump_head v h b p c).total_friction_loss + b +
        (calculate_pump_head v h b p c).pressure_head_meters ∧
    (calculate_pump_head v h b p c).total_head =
      ⌈(calculate_pump_head v h b p c).total_head_unrounded⌉ := by
  refine ⟨rfl, by norm_num [calculate_pump_head], rfl, rfl, rfl, rfl⟩

/-- C2: for every catalog and total head, the matcher returns exactly
the records whose minimum head is at least the total head, as a stable
sublist of the catalog (so the output is a subset of the input, every
returned record satisfies the inequality, no excluded record does, and
the original relative order is preserved). -/
theorem suitable_pumps_characterisation (catalog : List PumpRecord) (t : ℤ) :
    (suitable_pumps catalog t).Sublist catalog ∧
    ∀ p : PumpRecord,
      p ∈ suitable_pumps catalog t ↔ p ∈ catalog ∧ (t : ℚ) ≤ p.min_head := by
  constructor
  · exact List.filter_sublist catalog
  · intro p
    simp [suitable_pumps, List.mem_filter]

/-- C3: the loader's per-cell head normalisation takes the first
element of a bracketed two-element list and uses a numeric value
directly; in particular the text [30, 45] yields 30 and the scalar 40
yields 40. -/
theorem min_head_value_rule :
    (∀ v : ℚ, min_head_value (HeadCell.num v) = some v) ∧
    (∀ (s : String) (a b : ℚ), starts_with_open_bracket s = true →
      literal_eval_list s = some [a, b] →
      min_head_value (HeadCell.str s) = some a) ∧
    min_head_value (HeadCell.str "[30, 45]") = some 30 ∧
    min_head_value (HeadCell.num 40) = some 40 := by
  refine ⟨fun v => rfl, ?_, by decide, rfl⟩
  intro s a b hs hev
  simp [min_head_value, hs, hev]

/-- Witness for C3: the bracketed text [30, 45] satisfies both
hypotheses of the rule and yields minimum head 30. -/
theorem min_head_value_rule_witness :
    starts_with_open_bracket "[30, 45]" = true ∧
    literal_eval_list "[30, 45]" = some [30, 45] ∧
    min_head_value (HeadCell.str "[30, 45]") = some 30 :=
  ⟨by decide, by decide,
    min_head_value_rule.2.1 "[30, 45]" 30 45 (by decide) (by decide)⟩

/-- C4: for non-negative inputs, the total head is the ceiling of the
unrounded total head, so it is at least the unrounded value and
exceeds it by less than one meter; it is an integer by construction
(the total_head component lives in ℤ). -/
theorem total_head_ceiling_bounds (v h b p c : ℚ)
    (hv : 0 ≤ v) (hh : 0 ≤ h) (hb : 0 ≤ b) (hp : 0 ≤ p) (hc : 0 ≤ c) :
    (calculate_pump_head v h b p c).total_head =
      ⌈(calculate_pump_head v h b p c).total_head_unrounded⌉ ∧
    (calculate_pump_head v h b p c).total_head_unrounded ≤
      ((calculate_pump_head v h b p c).total_head : ℚ) ∧
    ((calculate_pump_head v h b p c).total_head : ℚ) -
      (calculate_pump_head v h b p c).total_head_unrounded < 1 := by
  have h1 : (calculate_pump_head v h b p c).total_head =
      ⌈(calculate_pump_head v h b p c).total_head_unrounded⌉ := rfl
  refine ⟨h1, ?_, ?_⟩
  · rw [h1]
    exact Int.le_ceil _
  · rw [h1]
    have h2 := Int.ceil_lt_add_one ((calculate_pump_head v h b p c).total_head_unrounded)
    linarith

/-- Witness for C4: the bounds at the worked example input. -/
theorem total_head_ceiling_bounds_witness :
    ((0 : ℚ) ≤ 66 ∧ (0 : ℚ) ≤ 109 ∧ (0 : ℚ) ≤ 5 ∧ (0 : ℚ) ≤ 7/2 ∧ (0 : ℚ) ≤ 100) ∧
    ((calculate_pump_head 66 109 5 (7/2) 100).total_head =
      ⌈(calculate_pump_head 66 109 5 (7/2) 100).total_head_unrounded⌉ ∧
    (calculate_pump_head 66 109 5 (7/2) 100).total_head_unrounded ≤
      ((calculate_pump_head 66 109 5 (7/2) 100).total_head : ℚ) ∧
    ((calculate_pump_head 66 109 5 (7/2) 100).total_head : ℚ) -
      (calculate_pump_head 66 109 5 (7/2) 100).total_head_unrounded < 1) :=
  ⟨by norm_num,
    total_head_ceiling_bounds 66 109 5 (7/2) 100 (by norm_num) (by norm_num)
      (by norm_num) (by norm_num) (by norm_num)⟩

/-- C5: holding the other four inputs fixed, the flow rate is strictly
increasing in the capacity; the flow-based friction loss, as the
function of the flow rate computed on line 32, is strictly increasing
over non-negative flow rates; and the calculator's flow friction
component is exactly that function of its flow rate. -/
theorem flow_monotonicity (v h b p c1 c2 f1 f2 : ℚ)
    (hcc : c1 < c2) (hf0 : 0 ≤ f1) (hff : f1 < f2) :
    (calculate_pump_head v h b p c1).flow_rate_lps <
      (calculate_pump_head v h b p c2).flow_rate_lps ∧
    flow_friction_of f1 < flow_friction_of f2 ∧
    (calculate_pump_head v h b p c1).flow_friction_loss =
      flow_friction_of ((calculate_pump_head v h b p c1).flow_rate_lps) := by
  refine ⟨?_, ?_, rfl⟩
  · show (c1 * 1000) / (24 * 60 * 60) < (c2 * 1000) / (24 * 60 * 60)
    have h86 : (0 : ℚ) < 24 * 60 * 60 := by norm_num
    exact (div_lt_div_iff_of_pos_right h86).mpr (by linarith)
  · show (0.1 : ℚ) * f1 ^ 2 < 0.1 * f2 ^ 2
    nlinarith

/-- Witness for C5: capacities 100 < 200 and flow rates 0 < 1. -/
theorem flow_monotonicity_witness :
    ((100 : ℚ) < 200 ∧ (0 : ℚ) ≤ 0 ∧ (0 : ℚ) < 1) ∧
    ((calculate_pump_head 66 109 5 (7/2) 100).flow_rate_lps <
      (calculate_pump_head 66 109 5 (7/2) 200).flow_rate_lps ∧
    flow_friction_of 0 < flow_friction_of 1 ∧
    (calculate_pump_head 66 109 5 (7/2) 100).flow_friction_loss =
      flow_friction_of ((calculate_pump_head 66 109 5 (7/2) 100).flow_rate_lps)) :=
  ⟨by norm_num,
    flow_monotonicity 66 109 5 (7/2) 100 200 0 1 (by norm_num) (by norm_num)
      (by norm_num)⟩

/-- C6: the worked example: inputs 66, 109, 5, 3.5 and capacity 100
give flow rate exactly 125/108 LPS, flow friction loss within 0.001 of
0.134, static friction loss exactly 11.62, total friction loss within
0.001 of 11.754, pressure head exactly 35, unrounded total head within
0.01 of 117.75, and total head 118. -/
theorem worked_example :
    (calculate_pump_head 66 109 5 (7/2) 100).flow_rate_lps = 125 / 108 ∧
    |(calculate_pump_head 66 109 5 (7/2) 100).flow_friction_loss - 0.134| < 1 / 1000 ∧
    (calculate_pump_head 66 109 5 (7/2) 100).total_friction_loss -
      (calculate_pump_head 66 109 5 (7/2) 100).flow_friction_loss = 11.62 ∧
    |(calculate_pump_head 66 109 5 (7/2) 100).total_friction_loss - 11.754| < 1 / 1000 ∧
    (calculate_pump_head 66 109 5 (7/2) 100).pressure_head_meters = 35 ∧
    |(calculate_pump_head 66 109 5 (7/2) 100).total_head_unrounded - 117.75| < 1 / 100 ∧
    (calculate_pump_head 66 109 5 (7/2) 100).total_head = 118 := by
  refine ⟨by norm_num [calculate_pump_head], ?_, by norm_num [calculate_pump_head],
    ?_, by norm_num [calculate_pump_head], ?_,
    by norm_num [calculate_pump_head, Int.ceil_eq_iff]⟩
  · rw [abs_sub_lt_iff]
    norm_num [calculate_pump_head]
  · rw [abs_sub_lt_iff]
    norm_num [calculate_pump_head]
  · rw [abs_sub_lt_iff]
    norm_num [calculate_pump_head]

/-- Counterexample for C7: on an empty catalog the button handler does
not proceed to the calculation at all; it reports the condition through
st.error (the dataError outcome), not as a warning. -/
theorem empty_catalog_claim_refuted :
    (run_button [] 66 109 5 (7/2) 100).proceeded = false ∧
    run_button [] 66 109 5 (7/2) 100 =
      ButtonOutcome.dataError "Pump data not loaded. Please check pumps.csv." :=
  ⟨rfl, rfl⟩

/-- C7 as amended: on an empty catalog the button handler stops with
the st.error message of line 82 and never reaches the calculator or
the matcher; the matcher itself, applied to an empty catalog, returns
the empty result for every total head without failing. -/
theorem empty_catalog_behaviour (v h b p c : ℚ) (t : ℤ) :
    run_button [] v h b p c =
      ButtonOutcome.dataError "Pump data not loaded. Please check pumps.csv." ∧
    suitable_pumps [] t = [] :=
  ⟨rfl, rfl⟩

/-- Counterexample for C8: a zero in the capacity column is offered as
an option and selected unchanged, and the button handler then runs the
calculator with capacity zero, which is not strictly positive. -/
theorem zero_capacity_claim_refuted :
    capacity_of_selection [some 0] 0 = some 0 ∧
    (run_button [example_pump] 66 109 5 (7/2) 0).proceeded = true ∧
    ¬ (0 : ℚ) < 0 :=
  ⟨rfl, rfl, by norm_num⟩

/-- C8 as amended: the capacity-selection path applies no positivity
validation: whenever the catalog is nonempty the button handler reaches
the calculator with whatever capacity was selected, zero included, and
the calculator at capacity zero simply yields flow rate zero. -/
theorem capacity_not_validated (pumps : List PumpRecord) (v h b p c : ℚ)
    (hne : pumps ≠ []) :
    (run_button pumps v h b p c).proceeded = true ∧
    (calculate_pump_head v h b p 0).flow_rate_lps = 0 := by
  constructor
  · cases pumps with
    | nil => exact absurd rfl hne
    | cons a l => rfl
  · show (0 * 1000) / (24 * 60 * 60) = (0 : ℚ)
    norm_num

/-- Witness for C8 as amended: a one-row catalog and capacity zero. -/
theorem capacity_not_validated_witness :
    ([example_pump] ≠ ([] : List PumpRecord)) ∧
    ((run_button [example_pump] 66 109 5 (7/2) 0).proceeded = true ∧
     (calculate_pump_head 66 109 5 (7/2) 0).flow_rate_lps = 0) :=
  ⟨by simp, capacity_not_validated [example_pump] 66 109 5 (7/2) 0 (by simp)⟩

/-- Counterexample for C9: on a missing pumps.csv the loader does not
fail: it returns a value, namely the empty catalog with the error flag
set (the FileNotFoundError is caught on line 15). -/
theorem missing_catalog_claim_refuted :
    load_pump_data CsvSource.missing = Except.ok ⟨true, []⟩ ∧
    (load_pump_data CsvSource.missing).isOk = true :=
  ⟨rfl, rfl⟩

/-- C9 as amended: on a missing pumps.csv the loader catches the
FileNotFoundError, displays an error message and returns an empty
catalog instead of failing; the triggering action is then blocked,
because the button handler stops with an error on the empty catalog. -/
theorem missing_catalog_behaviour (v h b p c : ℚ) :
    load_pump_data CsvSource.missing = Except.ok ⟨true, []⟩ ∧
    run_button [] v h b p c =
      ButtonOutcome.dataError "Pump data not loaded. Please check pumps.csv." :=
  ⟨rfl, rfl⟩

/-- C10: calculate_pump_head is total and deterministic: for every
rational input, zero and negative values included, its value is exactly
the closed-form six-component record below (its only division is by the
constant 86400), and at capacity zero the flow rate is zero. -/
theorem calculate_pump_head_total_deterministic (v h b p c : ℚ) :
    calculate_pump_head v h b p c =
      ⟨c * 1000 / 86400,
       0.1 * (c * 1000 / 86400) ^ 2,
       (v + h) * 0.083 * 0.8 + 0.1 * (c * 1000 / 86400) ^ 2,
       ⌈v + ((v + h) * 0.083 * 0.8 + 0.1 * (c * 1000 / 86400) ^ 2) + b + p * 10⌉,
       p * 10,
       v + ((v + h) * 0.083 * 0.8 + 0.1 * (c * 1000 / 86400) ^ 2) + b + p * 10⟩ ∧
    (calculate_pump_head v h b p 0).flow_rate_lps = 0 := by
  constructor
  · have h86 : (24 * 60 * 60 : ℚ) = 86400 := by norm_num
    simp only [calculate_pump_head, CalculationResult.mk.injEq, h86]
  · show (0 * 1000) / (24 * 60 * 60) = (0 : ℚ)
    norm_num
